import Mathlib

/-!
Verification of a minimal customer-management HTTP service (`src/main.py`):
a FastAPI app with a pydantic `Customer` model, a per-request pyodbc
connection factory `get_db_connection`, and two handlers
(`create_customer` for `POST /customers/`, `get_customers` for
`GET /customers/`) over a single relational table `customers(name, email)`.

The embedding models:
  * JSON payloads and the pydantic validation of `Customer` (fields
    `name : str`, `email : str`, default extra-field handling);
  * the environment (`os.getenv`) and the ODBC connection string built by
    `get_db_connection`;
  * the database as a list of rows (the only state), a connection with
    uncommitted pending writes, and fault injection for connection and
    query failures;
  * each handler as a function returning its HTTP-level result, the final
    durable table, and the trace of database operations it performed.
-/

set_option autoImplicit false

namespace CMS

/-- The pydantic model `Customer(BaseModel)` with `name : str`, `email : str`
(src/main.py lines 9-11).  Also the shape of one row of the `customers`
relation as read back by the service. -/
structure Customer where
  name : String
  email : String
deriving DecidableEq, Repr

/-- A JSON value, the shape of an inbound request body.  Objects are modelled
as association lists of string keys. -/
inductive Json where
  | null
  | bool (b : Bool)
  | num (n : Int)
  | str (s : String)
  | arr (elems : List Json)
  | obj (fields : List (String × Json))

/-- First binding of a key in a JSON object's field list (Python dicts hold
one binding per key; first-match lookup is the faithful reading). -/
def lookupField (fields : List (String × Json)) (key : String) : Option Json :=
  match fields with
  | [] => none
  | (k, v) :: rest => if k = key then some v else lookupField rest key

/-- Validation failures pydantic reports for the `Customer` model. -/
inductive ValidationError where
  | notAnObject
  | missingField (field : String)
  | wrongType (field : String)
deriving DecidableEq, Repr

/-- Pydantic validation of an inbound payload against `Customer`
(src/main.py lines 9-11): the payload must be an object, the fields `name`
and `email` must be present and be strings; any other field is ignored
(pydantic's default extra-field policy).  No emptiness or email-format
constraint appears in the model. -/
def validate_customer (payload : Json) : Except ValidationError Customer :=
  match payload with
  | .obj fields =>
    match lookupField fields "name" with
    | none => .error (.missingField "name")
    | some (.str n) =>
      match lookupField fields "email" with
      | none => .error (.missingField "email")
      | some (.str e) => .ok { name := n, email := e }
      | some _ => .error (.wrongType "email")
    | some _ => .error (.wrongType "name")
  | _ => .error .notAnObject

/-- The process environment as seen by `os.getenv`. -/
abbrev Env := String → Option String

/-- `os.getenv(key, default)`. -/
def getenv (env : Env) (key default : String) : String :=
  (env key).getD default

/-- The ODBC connection string built by `get_db_connection`
(src/main.py lines 14-27): four configuration values read from the
environment with hardcoded defaults, a fixed driver, and
`Encrypt=yes;TrustServerCertificate=no;Connection Timeout=30;`. -/
def get_db_connection_str (env : Env) : String :=
  let server := getenv env "SQL_SERVER" "cms-sql-server2025.database.windows.net"
  let database := getenv env "SQL_DB" "cms-db"
  let username := getenv env "SQL_USER" "sqladmin"
  let password := getenv env "SQL_PASSWORD" "P@ssw0rd123!"
  let driver := "\x7bODBC Driver 18 for SQL Server\x7d"
  "DRIVER=" ++ driver ++ ";" ++
  "SERVER=" ++ server ++ ";" ++
  "DATABASE=" ++ database ++ ";" ++
  "UID=" ++ username ++ ";" ++
  "PWD=" ++ password ++ ";" ++
  "Encrypt=yes;TrustServerCertificate=no;Connection Timeout=30;"

/-- Errors the database driver can raise: `pyodbc.connect` failing the
network/auth handshake, or a statement failing during execution. -/
inductive DBError where
  | connectionError
  | queryError
deriving DecidableEq, Repr

/-- Fault injection for the driver: whether `pyodbc.connect` fails, and
whether `cursor.execute` fails. -/
structure Fault where
  connectFails : Bool
  executeFails : Bool
deriving DecidableEq, Repr

/-- The healthy database: neither connecting nor executing fails. -/
def noFault : Fault := { connectFails := false, executeFails := false }

/-- The backing database: the rows of the `customers` relation, in
insertion order.  This is the only state of the system. -/
structure DB where
  table : List Customer
deriving DecidableEq, Repr

/-- A live pyodbc connection: its connection string and the rows inserted
through it that are not yet committed. -/
structure Conn where
  connStr : String
  pending : List Customer
deriving DecidableEq, Repr

/-- `pyodbc.connect(conn_str)`: yields a fresh connection with no pending
writes, or raises on handshake failure. -/
def pyodbc_connect (fault : Fault) (connStr : String) : Except DBError Conn :=
  if fault.connectFails then .error .connectionError
  else .ok { connStr := connStr, pending := [] }

/-- `cursor.execute("INSERT INTO customers (name, email) VALUES (?, ?)",
(name, email))`: buffers one row on the connection, or raises. -/
def cursor_execute_insert (fault : Fault) (conn : Conn) (name email : String) :
    Except DBError Conn :=
  if fault.executeFails then .error .queryError
  else .ok { conn with pending := conn.pending ++ [{ name := name, email := email }] }

/-- `conn.commit()`: makes the connection's pending writes durable. -/
def conn_commit (db : DB) (conn : Conn) : DB :=
  { table := db.table ++ conn.pending }

/-- `cursor.execute("SELECT name, email FROM customers")` followed by
`cursor.fetchall()`: every row of the table, as `(name, email)` tuples, in
the order the database returns (here: table order), or raises. -/
def cursor_execute_select_fetchall (fault : Fault) (db : DB) :
    Except DBError (List (String × String)) :=
  if fault.executeFails then .error .queryError
  else .ok (db.table.map fun r => (r.name, r.email))

/-- The SQL text of the insert statement, with `?` placeholders
(src/main.py line 36). -/
def insertCustomerSQL : String := "INSERT INTO customers (name, email) VALUES (?, ?)"

/-- The SQL text of the select statement (src/main.py line 47). -/
def selectCustomersSQL : String := "SELECT name, email FROM customers"

/-- One database operation a handler performs, as recorded in its trace.
`execute` carries the SQL text and the bound parameter values, kept
separate (placeholder binding). -/
inductive DBOp where
  | connect (connStr : String)
  | execute (sql : String) (params : List String)
  | commit
  | fetchall
  | close
deriving DecidableEq, Repr

/-- What running one handler produces: the HTTP-level result (a value or a
propagated driver error), the final durable table, and the ordered trace of
database operations the handler performed. -/
structure HandlerOutcome (α : Type) where
  result : Except DBError α
  finalTable : List Customer
  trace : List DBOp
deriving Repr

/-- The success body of `POST /customers/`:
`{"message": "Customer created", "name": customer.name}`. -/
structure CreateResponse where
  message : String
  name : String
deriving DecidableEq, Repr

/-- The handler `create_customer` (src/main.py lines 31-40):
open a connection, execute the parameterized insert, commit, return the
confirmation.  A driver error at any step propagates; the handler installs
no handler of its own and never closes the connection. -/
def create_customer (env : Env) (fault : Fault) (db : DB) (customer : Customer) :
    HandlerOutcome CreateResponse :=
  let connStr := get_db_connection_str env
  match pyodbc_connect fault connStr with
  | .error e =>
    { result := .error e, finalTable := db.table, trace := [.connect connStr] }
  | .ok conn =>
    match cursor_execute_insert fault conn customer.name customer.email with
    | .error e =>
      { result := .error e, finalTable := db.table,
        trace := [.connect connStr,
                  .execute insertCustomerSQL [customer.name, customer.email]] }
    | .ok conn2 =>
      let db2 := conn_commit db conn2
      { result := .ok { message := "Customer created", name := customer.name },
        finalTable := db2.table,
        trace := [.connect connStr,
                  .execute insertCustomerSQL [customer.name, customer.email],
                  .commit] }

/-- The handler `get_customers` (src/main.py lines 43-49):
open a connection, execute the select, fetch all rows, return one
`{name, email}` object per row in row order.  A driver error propagates;
the connection is never closed. -/
def get_customers (env : Env) (fault : Fault) (db : DB) :
    HandlerOutcome (List Customer) :=
  let connStr := get_db_connection_str env
  match pyodbc_connect fault connStr with
  | .error e =>
    { result := .error e, finalTable := db.table, trace := [.connect connStr] }
  | .ok _conn =>
    match cursor_execute_select_fetchall fault db with
    | .error e =>
      { result := .error e, finalTable := db.table,
        trace := [.connect connStr, .execute selectCustomersSQL []] }
    | .ok rows =>
      { result := .ok (rows.map fun row => { name := row.1, email := row.2 }),
        finalTable := db.table,
        trace := [.connect connStr, .execute selectCustomersSQL [], .fetchall] }

/-- The outcome of `POST /customers/` at the HTTP layer: 422-equivalent on
validation failure, 500-equivalent on a driver error, 200 with the
confirmation body on success. -/
inductive PostResult where
  | validationError (e : ValidationError)
  | serverError (e : DBError)
  | success (r : CreateResponse)
deriving DecidableEq, Repr

/-- The full `POST /customers/` endpoint: FastAPI validates the payload
against `Customer` before `create_customer` runs; a rejected payload never
reaches the handler, so no database operation happens for it. -/
def post_customers (env : Env) (fault : Fault) (db : DB) (payload : Json) :
    PostResult × DB × List DBOp :=
  match validate_customer payload with
  | .error e => (.validationError e, db, [])
  | .ok customer =>
    let out := create_customer env fault db customer
    match out.result with
    | .error e => (.serverError e, { table := out.finalTable }, out.trace)
    | .ok r => (.success r, { table := out.finalTable }, out.trace)

/-- An environment with no configuration entry set. -/
def envEmpty : Env := fun _ => none

/-- `part` occurs contiguously in `s`. -/
def hasPart (s part : String) : Prop := ∃ a b, s = a ++ part ++ b

end CMS

namespace CMS

/-! ### Helper lemmas -/

/-- Reading a row back as a `{name, email}` object is the identity on rows. -/
theorem row_roundtrip :
    ((fun row : String × String => Customer.mk row.1 row.2) ∘
      fun r : Customer => (r.name, r.email)) = id :=
  funext fun _ => rfl

/-- Against a healthy database, `get_customers` returns exactly the rows of
the table. -/
theorem get_customers_ok (env : Env) (db : DB) :
    (get_customers env noFault db).result = .ok db.table := by
  simp [get_customers, pyodbc_connect, cursor_execute_select_fetchall, noFault,
    List.map_map, row_roundtrip]

/-- Against a healthy database, `create_customer` appends the new row at the
end of the table. -/
theorem create_customer_appends (env : Env) (db : DB) (c : Customer) :
    (create_customer env noFault db c).finalTable = db.table ++ [c] := by
  simp [create_customer, pyodbc_connect, cursor_execute_insert, conn_commit, noFault]

/-- Keys that never occur in a prefix of an object's field list do not
affect lookup. -/
theorem lookupField_skips (pre rest : List (String × Json)) (key : String)
    (h : ∀ kv ∈ pre, kv.1 ≠ key) :
    lookupField (pre ++ rest) key = lookupField rest key := by
  induction pre with
  | nil => rfl
  | cons kv tail ih =>
    obtain ⟨k, v⟩ := kv
    have hk : k ≠ key := h (k, v) (by simp)
    simp only [List.cons_append, lookupField, if_neg hk]
    exact ih fun kv hkv => h kv (by simp [hkv])

/-! ### C1 -/

/-- C1 counterexample: when the pair is already present in the table, a
successful POST of `("Ada Lovelace", "ada@example.com")` followed by GET
returns a sequence containing that pair twice, not exactly once: the insert
is unconditional and the table has no uniqueness constraint. -/
theorem post_then_get_pair_twice :
    (create_customer envEmpty noFault
        { table := [{ name := "Ada Lovelace", email := "ada@example.com" }] }
        { name := "Ada Lovelace", email := "ada@example.com" }).result =
      .ok { message := "Customer created", name := "Ada Lovelace" } ∧
    (get_customers envEmpty noFault
        { table := (create_customer envEmpty noFault
            { table := [{ name := "Ada Lovelace", email := "ada@example.com" }] }
            { name := "Ada Lovelace", email := "ada@example.com" }).finalTable }).result =
      .ok [{ name := "Ada Lovelace", email := "ada@example.com" },
           { name := "Ada Lovelace", email := "ada@example.com" }] ∧
    ([{ name := "Ada Lovelace", email := "ada@example.com" },
      { name := "Ada Lovelace", email := "ada@example.com" }] : List Customer).count
        { name := "Ada Lovelace", email := "ada@example.com" } = 2 :=
  ⟨rfl, rfl, by decide⟩

/-- C1 (amended): for every valid `(name, email)` input, a successful POST
followed by GET returns a sequence in which that pair occurs exactly one
more time than it occurred in the table before the POST; in particular it
occurs exactly once when it was not already present. -/
theorem post_then_get_count (env : Env) (db : DB) (c : Customer) :
    (create_customer env noFault db c).result =
      .ok { message := "Customer created", name := c.name } ∧
    ∃ l, (get_customers env noFault
        { table := (create_customer env noFault db c).finalTable }).result = .ok l ∧
      l.count c = db.table.count c + 1 := by
  refine ⟨rfl, (create_customer env noFault db c).finalTable, get_customers_ok env _, ?_⟩
  rw [create_customer_appends]
  simp [List.count_append]

/-! ### C2 -/

/-- C2 counterexample: the payload `{"name": "", "email": "not-an-email"}` —
an empty name and a malformed email — is accepted by the validator, because
the pydantic model declares both fields as plain `str` with no non-emptiness
or email-format constraint; the claim says it must be rejected. -/
theorem validator_accepts_empty_name_and_malformed_email :
    validate_customer (.obj [("name", .str ""), ("email", .str "not-an-email")]) =
      .ok { name := "", email := "not-an-email" } := rfl

/-- C2 (amended): the validator accepts a payload iff it is an object whose
`name` and `email` fields are present and are strings — any string values,
with no non-emptiness check on `name` and no email-format check on `email`;
every other payload (missing field, wrong type, non-object) is rejected with
a `ValidationError`, and no database operation is performed for a rejected
payload. -/
theorem validator_characterization (p : Json) (env : Env) (db : DB) :
    (∀ c : Customer, validate_customer p = .ok c ↔
      ∃ fields, p = .obj fields ∧
        lookupField fields "name" = some (.str c.name) ∧
        lookupField fields "email" = some (.str c.email)) ∧
    (∀ e, validate_customer p = .error e →
      (post_customers env noFault db p).2.1 = db ∧
      (post_customers env noFault db p).2.2 = []) := by
  constructor
  · rintro ⟨cn, ce⟩
    cases p with
    | obj fields =>
      cases hn : lookupField fields "name" with
      | none => simp [validate_customer, hn]
      | some v =>
        cases v with
        | str n =>
          cases he : lookupField fields "email" with
          | none => simp [validate_customer, hn, he]
          | some w =>
            cases w with
            | str e => simp [validate_customer, hn, he, eq_comm]
            | null => simp [validate_customer, hn, he]
            | bool b => simp [validate_customer, hn, he]
            | num m => simp [validate_customer, hn, he]
            | arr xs => simp [validate_customer, hn, he]
            | obj fs => simp [validate_customer, hn, he]
        | null => simp [validate_customer, hn]
        | bool b => simp [validate_customer, hn]
        | num m => simp [validate_customer, hn]
        | arr xs => simp [validate_customer, hn]
        | obj fs => simp [validate_customer, hn]
    | null => simp [validate_customer]
    | bool b => simp [validate_customer]
    | num n => simp [validate_customer]
    | str s => simp [validate_customer]
    | arr xs => simp [validate_customer]
  · intro e he
    simp [post_customers, he]

/-- Witness for C2 (amended): the empty object is rejected for its missing
`name`, and its POST leaves the database untouched and performs no database
operation. -/
theorem validator_characterization_witness :
    (post_customers envEmpty noFault { table := [] } (.obj [])).2.1 =
      ({ table := [] } : DB) ∧
    (post_customers envEmpty noFault { table := [] } (.obj [])).2.2 = [] :=
  (validator_characterization (.obj []) envEmpty { table := [] }).2
    (.missingField "name") rfl

end CMS

namespace CMS

/-! ### C3 -/

/-- C3 (code bug): neither handler ever performs a `close` operation, on any
exit path — healthy run, connection failure, or query failure — even though
both open a connection (the `connect` operation is always attempted and
appears in every trace).  The spec requires scoped acquisition with
guaranteed release; the code simply never closes what it opens. -/
theorem handlers_never_close (env : Env) (fault : Fault) (db : DB) (c : Customer) :
    DBOp.close ∉ (create_customer env fault db c).trace ∧
    DBOp.close ∉ (get_customers env fault db).trace ∧
    DBOp.connect (get_db_connection_str env) ∈ (create_customer env fault db c).trace ∧
    DBOp.connect (get_db_connection_str env) ∈ (get_customers env fault db).trace := by
  obtain ⟨cf, ef⟩ := fault
  cases cf <;> cases ef <;>
    simp [create_customer, get_customers, pyodbc_connect, cursor_execute_insert,
      cursor_execute_select_fetchall, conn_commit]

/-! ### C4 -/

/-- C4: against a healthy database, `create_customer` performs exactly one
`connect`, one parameterized execute of the constant insert statement with
the name and email passed as bound parameters (the SQL text is a fixed
string with `?` placeholders, independent of the input), and one `commit`
immediately after, in that order and nothing else; it returns the body
`{"message": "Customer created", "name": customer.name}` and the table
gains exactly the new row. -/
theorem create_customer_insert_commit_response (env : Env) (db : DB) (c : Customer) :
    (create_customer env noFault db c).result =
      .ok { message := "Customer created", name := c.name } ∧
    (create_customer env noFault db c).trace =
      [.connect (get_db_connection_str env),
       .execute insertCustomerSQL [c.name, c.email],
       .commit] ∧
    insertCustomerSQL = "INSERT INTO customers (name, email) VALUES (?, ?)" ∧
    (create_customer env noFault db c).finalTable = db.table ++ [c] :=
  ⟨rfl, rfl, rfl, create_customer_appends env db c⟩

/-! ### C5 -/

/-- C5: against a healthy database, `get_customers` returns exactly one
`{name, email}` object per row, carrying that row's name and email, in row
order; on an empty table it returns the empty sequence, not an error. -/
theorem get_customers_maps_rows_in_order (env : Env) (db : DB) :
    (get_customers env noFault db).result =
      .ok (db.table.map fun r => { name := r.name, email := r.email }) ∧
    (get_customers env noFault { table := [] }).result = .ok ([] : List Customer) := by
  constructor
  · simp [get_customers, pyodbc_connect, cursor_execute_select_fetchall, noFault,
      List.map_map, row_roundtrip]
  · rfl

/-! ### C6 -/

/-- C6: the sequence returned by `get_customers` has exactly the members of
the backing `customers` table at query time — the handler reads the table
and holds no other state. -/
theorem get_customers_matches_table (env : Env) (db : DB) :
    ∃ l, (get_customers env noFault db).result = .ok l ∧
      ∀ x : Customer, x ∈ l ↔ x ∈ db.table :=
  ⟨db.table, get_customers_ok env db, fun _ => Iff.rfl⟩

/-! ### C7 -/

/-- C7: the connection string is built from the four configuration values
`SQL_SERVER`, `SQL_DB`, `SQL_USER`, `SQL_PASSWORD`: each set entry
overrides its default and each unset entry falls back to the hardcoded
default, and the string always demands encrypted transport
(`Encrypt=yes`). -/
theorem connection_factory_config (env : Env) (v : String) :
    (env "SQL_SERVER" = some v →
      hasPart (get_db_connection_str env) ("SERVER=" ++ v ++ ";")) ∧
    (env "SQL_SERVER" = none →
      hasPart (get_db_connection_str env)
        ("SERVER=" ++ "cms-sql-server2025.database.windows.net" ++ ";")) ∧
    (env "SQL_DB" = some v →
      hasPart (get_db_connection_str env) ("DATABASE=" ++ v ++ ";")) ∧
    (env "SQL_DB" = none →
      hasPart (get_db_connection_str env) ("DATABASE=" ++ "cms-db" ++ ";")) ∧
    (env "SQL_USER" = some v →
      hasPart (get_db_connection_str env) ("UID=" ++ v ++ ";")) ∧
    (env "SQL_USER" = none →
      hasPart (get_db_connection_str env) ("UID=" ++ "sqladmin" ++ ";")) ∧
    (env "SQL_PASSWORD" = some v →
      hasPart (get_db_connection_str env) ("PWD=" ++ v ++ ";")) ∧
    (env "SQL_PASSWORD" = none →
      hasPart (get_db_connection_str env) ("PWD=" ++ "P@ssw0rd123!" ++ ";")) ∧
    hasPart (get_db_connection_str env) "Encrypt=yes" := by
  refine ⟨?_, ?_, ?_, ?_, ?_, ?_, ?_, ?_, ?_⟩
  · intro h
    refine ⟨"DRIVER=\x7bODBC Driver 18 for SQL Server\x7d;",
      "DATABASE=" ++ getenv env "SQL_DB" "cms-db" ++ ";" ++
      "UID=" ++ getenv env "SQL_USER" "sqladmin" ++ ";" ++
      "PWD=" ++ getenv env "SQL_PASSWORD" "P@ssw0rd123!" ++ ";" ++
      "Encrypt=yes;TrustServerCertificate=no;Connection Timeout=30;", ?_⟩
    apply String.ext
    simp [get_db_connection_str, getenv, h, String.data_append]
  · intro h
    refine ⟨"DRIVER=\x7bODBC Driver 18 for SQL Server\x7d;",
      "DATABASE=" ++ getenv env "SQL_DB" "cms-db" ++ ";" ++
      "UID=" ++ getenv env "SQL_USER" "sqladmin" ++ ";" ++
      "PWD=" ++ getenv env "SQL_PASSWORD" "P@ssw0rd123!" ++ ";" ++
      "Encrypt=yes;TrustServerCertificate=no;Connection Timeout=30;", ?_⟩
    apply String.ext
    simp [get_db_connection_str, getenv, h, String.data_append]
  · intro h
    refine ⟨"DRIVER=\x7bODBC Driver 18 for SQL Server\x7d;" ++
      "SERVER=" ++ getenv env "SQL_SERVER" "cms-sql-server2025.database.windows.net" ++ ";",
      "UID=" ++ getenv env "SQL_USER" "sqladmin" ++ ";" ++
      "PWD=" ++ getenv env "SQL_PASSWORD" "P@ssw0rd123!" ++ ";" ++
      "Encrypt=yes;TrustServerCertificate=no;Connection Timeout=30;", ?_⟩
    apply String.ext
    simp [get_db_connection_str, getenv, h, String.data_append]
  · intro h
    refine ⟨"DRIVER=\x7bODBC Driver 18 for SQL Server\x7d;" ++
      "SERVER=" ++ getenv env "SQL_SERVER" "cms-sql-server2025.database.windows.net" ++ ";",
      "UID=" ++ getenv env "SQL_USER" "sqladmin" ++ ";" ++
      "PWD=" ++ getenv env "SQL_PASSWORD" "P@ssw0rd123!" ++ ";" ++
      "Encrypt=yes;TrustServerCertificate=no;Connection Timeout=30;", ?_⟩
    apply String.ext
    simp [get_db_connection_str, getenv, h, String.data_append]
  · intro h
    refine ⟨"DRIVER=\x7bODBC Driver 18 for SQL Server\x7d;" ++
      "SERVER=" ++ getenv env "SQL_SERVER" "cms-sql-server2025.database.windows.net" ++ ";" ++
      "DATABASE=" ++ getenv env "SQL_DB" "cms-db" ++ ";",
      "PWD=" ++ getenv env "SQL_PASSWORD" "P@ssw0rd123!" ++ ";" ++
      "Encrypt=yes;TrustServerCertificate=no;Connection Timeout=30;", ?_⟩
    apply String.ext
    simp [get_db_connection_str, getenv, h, String.data_append]
  · intro h
    refine ⟨"DRIVER=\x7bODBC Driver 18 for SQL Server\x7d;" ++
      "SERVER=" ++ getenv env "SQL_SERVER" "cms-sql-server2025.database.windows.net" ++ ";" ++
      "DATABASE=" ++ getenv env "SQL_DB" "cms-db" ++ ";",
      "PWD=" ++ getenv env "SQL_PASSWORD" "P@ssw0rd123!" ++ ";" ++
      "Encrypt=yes;TrustServerCertificate=no;Connection Timeout=30;", ?_⟩
    apply String.ext
    simp [get_db_connection_str, getenv, h, String.data_append]
  · intro h
    refine ⟨"DRIVER=\x7bODBC Driver 18 for SQL Server\x7d;" ++
      "SERVER=" ++ getenv env "SQL_SERVER" "cms-sql-server2025.database.windows.net" ++ ";" ++
      "DATABASE=" ++ getenv env "SQL_DB" "cms-db" ++ ";" ++
      "UID=" ++ getenv env "SQL_USER" "sqladmin" ++ ";",
      "Encrypt=yes;TrustServerCertificate=no;Connection Timeout=30;", ?_⟩
    apply String.ext
    simp [get_db_connection_str, getenv, h, String.data_append]
  · intro h
    refine ⟨"DRIVER=\x7bODBC Driver 18 for SQL Server\x7d;" ++
      "SERVER=" ++ getenv env "SQL_SERVER" "cms-sql-server2025.database.windows.net" ++ ";" ++
      "DATABASE=" ++ getenv env "SQL_DB" "cms-db" ++ ";" ++
      "UID=" ++ getenv env "SQL_USER" "sqladmin" ++ ";",
      "Encrypt=yes;TrustServerCertificate=no;Connection Timeout=30;", ?_⟩
    apply String.ext
    simp [get_db_connection_str, getenv, h, String.data_append]
  · have hsplit : "Encrypt=yes;TrustServerCertificate=no;Connection Timeout=30;" =
        "Encrypt=yes" ++ ";TrustServerCertificate=no;Connection Timeout=30;" := by decide
    refine ⟨"DRIVER=\x7bODBC Driver 18 for SQL Server\x7d;" ++
      "SERVER=" ++ getenv env "SQL_SERVER" "cms-sql-server2025.database.windows.net" ++ ";" ++
      "DATABASE=" ++ getenv env "SQL_DB" "cms-db" ++ ";" ++
      "UID=" ++ getenv env "SQL_USER" "sqladmin" ++ ";" ++
      "PWD=" ++ getenv env "SQL_PASSWORD" "P@ssw0rd123!" ++ ";",
      ";TrustServerCertificate=no;Connection Timeout=30;", ?_⟩
    apply String.ext
    simp [get_db_connection_str, getenv, hsplit, String.data_append]

/-- Witness for C7: with `SQL_SERVER` set to `db.example.org` and the other
entries unset, the connection string carries the override for the server
and the default for the database name. -/
theorem connection_factory_config_witness :
    hasPart (get_db_connection_str
        (fun k => if k = "SQL_SERVER" then some "db.example.org" else none))
      ("SERVER=" ++ "db.example.org" ++ ";") ∧
    hasPart (get_db_connection_str
        (fun k => if k = "SQL_SERVER" then some "db.example.org" else none))
      ("DATABASE=" ++ "cms-db" ++ ";") :=
  ⟨(connection_factory_config
      (fun k => if k = "SQL_SERVER" then some "db.example.org" else none)
      "db.example.org").1 rfl,
   (connection_factory_config
      (fun k => if k = "SQL_SERVER" then some "db.example.org" else none)
      "db.example.org").2.2.2.1 rfl⟩

end CMS

namespace CMS

/-! ### C8 -/

/-- C8: driver errors propagate unmodified to the HTTP result in both
handlers — a failed handshake surfaces as exactly `connectionError`, a
failed statement as exactly `queryError` — and there is no retry: each
handler's trace contains exactly one `connect` attempt, whatever the fault
pattern. -/
theorem errors_propagate_unmodified (env : Env) (db : DB) (c : Customer) (b : Bool) :
    (create_customer env { connectFails := true, executeFails := b } db c).result =
      .error .connectionError ∧
    (get_customers env { connectFails := true, executeFails := b } db).result =
      .error .connectionError ∧
    (create_customer env { connectFails := false, executeFails := true } db c).result =
      .error .queryError ∧
    (get_customers env { connectFails := false, executeFails := true } db).result =
      .error .queryError ∧
    (∀ f : Fault, (create_customer env f db c).trace.count
        (.connect (get_db_connection_str env)) = 1) ∧
    (∀ f : Fault, (get_customers env f db).trace.count
        (.connect (get_db_connection_str env)) = 1) := by
  refine ⟨rfl, rfl, rfl, rfl, ?_, ?_⟩ <;>
    rintro ⟨cf, ef⟩ <;> cases cf <;> cases ef <;>
      simp [create_customer, get_customers, pyodbc_connect, cursor_execute_insert,
        cursor_execute_select_fetchall, conn_commit, List.count_cons]

/-! ### C9 -/

/-- C9: `create_customer` is atomic with respect to errors: whenever its
result is an error — handshake failure or insert failure — no `commit`
operation was performed and the table is exactly as it was before the
request. -/
theorem create_customer_atomic_on_error (env : Env) (fault : Fault) (db : DB)
    (c : Customer) (e : DBError)
    (h : (create_customer env fault db c).result = .error e) :
    (create_customer env fault db c).finalTable = db.table ∧
    DBOp.commit ∉ (create_customer env fault db c).trace := by
  obtain ⟨cf, ef⟩ := fault
  cases cf <;> cases ef <;>
    simp_all [create_customer, pyodbc_connect, cursor_execute_insert, conn_commit]

/-- Witness for C9: a handshake failure on a one-row table leaves the table
as it was and commits nothing. -/
theorem create_customer_atomic_on_error_witness :
    (create_customer envEmpty { connectFails := true, executeFails := false }
        { table := [{ name := "Ada", email := "ada@example.com" }] }
        { name := "Grace", email := "grace@example.com" }).finalTable =
      [{ name := "Ada", email := "ada@example.com" }] ∧
    DBOp.commit ∉ (create_customer envEmpty { connectFails := true, executeFails := false }
        { table := [{ name := "Ada", email := "ada@example.com" }] }
        { name := "Grace", email := "grace@example.com" }).trace :=
  create_customer_atomic_on_error envEmpty { connectFails := true, executeFails := false }
    { table := [{ name := "Ada", email := "ada@example.com" }] }
    { name := "Grace", email := "grace@example.com" } .connectionError rfl

/-! ### C10 -/

/-- C10: a payload carrying the required string fields `name` and `email` —
in either order, with any other fields of any shape before, between, or
after them — is accepted, and the extra fields are ignored: the validated
record carries only the given name and email. -/
theorem extra_fields_ignored (pre mid post : List (String × Json)) (n e : String)
    (h : ∀ kv ∈ pre ++ mid ++ post, kv.1 ≠ "name" ∧ kv.1 ≠ "email") :
    validate_customer
        (.obj (pre ++ ("name", Json.str n) :: (mid ++ ("email", Json.str e) :: post))) =
      .ok { name := n, email := e } ∧
    validate_customer
        (.obj (pre ++ ("email", Json.str e) :: (mid ++ ("name", Json.str n) :: post))) =
      .ok { name := n, email := e } := by
  have hpre : ∀ kv ∈ pre, kv.1 ≠ "name" ∧ kv.1 ≠ "email" :=
    fun kv hkv => h kv (by simp [hkv])
  have hmid : ∀ kv ∈ mid, kv.1 ≠ "name" ∧ kv.1 ≠ "email" :=
    fun kv hkv => h kv (by simp [hkv])
  constructor
  · have hn : lookupField (pre ++ ("name", Json.str n) ::
          (mid ++ ("email", Json.str e) :: post)) "name" = some (Json.str n) := by
      rw [lookupField_skips pre _ "name" (fun kv hkv => (hpre kv hkv).1)]
      simp [lookupField]
    have he : lookupField (pre ++ ("name", Json.str n) ::
          (mid ++ ("email", Json.str e) :: post)) "email" = some (Json.str e) := by
      have hassoc : pre ++ ("name", Json.str n) :: (mid ++ ("email", Json.str e) :: post)
          = (pre ++ ("name", Json.str n) :: mid) ++ (("email", Json.str e) :: post) := by
        simp
      rw [hassoc, lookupField_skips _ _ "email" ?hk]
      · simp [lookupField]
      case hk =>
        intro kv hkv
        rcases List.mem_append.mp hkv with hkv | hkv
        · exact (hpre kv hkv).2
        · rcases List.mem_cons.mp hkv with rfl | hkv
          · simp
          · exact (hmid kv hkv).2
    simp [validate_customer, hn, he]
  · have he : lookupField (pre ++ ("email", Json.str e) ::
          (mid ++ ("name", Json.str n) :: post)) "email" = some (Json.str e) := by
      rw [lookupField_skips pre _ "email" (fun kv hkv => (hpre kv hkv).2)]
      simp [lookupField]
    have hn : lookupField (pre ++ ("email", Json.str e) ::
          (mid ++ ("name", Json.str n) :: post)) "name" = some (Json.str n) := by
      have hassoc : pre ++ ("email", Json.str e) :: (mid ++ ("name", Json.str n) :: post)
          = (pre ++ ("email", Json.str e) :: mid) ++ (("name", Json.str n) :: post) := by
        simp
      rw [hassoc, lookupField_skips _ _ "name" ?hk]
      · simp [lookupField]
      case hk =>
        intro kv hkv
        rcases List.mem_append.mp hkv with hkv | hkv
        · exact (hpre kv hkv).1
        · rcases List.mem_cons.mp hkv with rfl | hkv
          · simp
          · exact (hmid kv hkv).1
    simp [validate_customer, hn, he]

/-- Witness for C10: a payload with an extra `age` field first, an extra
`plan` field between the required fields, and an extra `role` field last
validates to exactly the `(name, email)` record, in both field orders. -/
theorem extra_fields_ignored_witness :
    validate_customer
        (.obj ([("age", Json.num 36)] ++ ("name", Json.str "Ada") ::
          ([("plan", Json.str "pro")] ++ ("email", Json.str "ada@example.com") ::
            [("role", Json.str "admin")]))) =
      .ok { name := "Ada", email := "ada@example.com" } ∧
    validate_customer
        (.obj ([("age", Json.num 36)] ++ ("email", Json.str "ada@example.com") ::
          ([("plan", Json.str "pro")] ++ ("name", Json.str "Ada") ::
            [("role", Json.str "admin")]))) =
      .ok { name := "Ada", email := "ada@example.com" } :=
  extra_fields_ignored [("age", Json.num 36)] [("plan", Json.str "pro")]
    [("role", Json.str "admin")] "Ada" "ada@example.com" (by simp)

end CMS
